import Mathlib

/-!
Verification of the LLM report-generator core of this repository
(rust/ai-report-generator): the retry/fallback LLM client, the pricing
table, the lenient JSON extraction of the pipeline, and the report
formatter.

Rust strings are modelled as `List Char` (a Rust `String` is a sequence
of Unicode scalar values); byte positions are recovered through
`Char.utf8Size`.  Fallible or panicking operations return `Option`:
`none` models a Rust panic.  `f64`/`f32` values that the claims treat
arithmetically (prices, costs, temperature) are modelled as `ℚ`.
-/

/-- Byte length of a Rust string (`str::len`): sum of the UTF-8 sizes of
its characters. -/
def lenBytes (s : List Char) : Nat := (s.map Char.utf8Size).sum

/-- Helper for `char_indices`: pairs every character with its byte
offset, starting from `off`. -/
def charIndicesAux : Nat → List Char → List (Nat × Char)
  | _, [] => []
  | off, c :: rest => (off, c) :: charIndicesAux (off + c.utf8Size) rest

/-- Model of Rust `str::char_indices`: every character paired with the
byte offset at which it starts. -/
def char_indices (s : List Char) : List (Nat × Char) := charIndicesAux 0 s

/-- Model of `truncate` from rust/ai-report-generator/src/llm/client.rs
(lines 267-276): if the byte length is within `max` the string is
returned unchanged, else the characters whose *starting* byte offset is
below `max` are kept. -/
def truncate (s : List Char) (max : Nat) : List Char :=
  if lenBytes s ≤ max then s
  else ((char_indices s).takeWhile (fun p => p.1 < max)).map Prod.snd

/-- Helper for byte-offset substring search: first position (as a byte
offset, starting from `off`) at which `needle` occurs in `hay`. -/
def findSubAux (needle : List Char) : Nat → List Char → Option Nat
  | off, [] => if needle.isEmpty then some off else none
  | off, c :: rest =>
    if needle.isPrefixOf (c :: rest) then some off
    else findSubAux needle (off + c.utf8Size) rest

/-- Model of Rust `str::find(pattern)` returning a byte offset.  All
patterns used by the embedded code start with an ASCII character, for
which character-level occurrence coincides with byte-level occurrence in
valid UTF-8. -/
def findSubB (needle hay : List Char) : Option Nat := findSubAux needle 0 hay

/-- Helper for `rfindCharB`: byte offset of the last occurrence of `c`,
offsets counted from `off`. -/
def rfindCharAux (c : Char) : Nat → List Char → Option Nat
  | _, [] => none
  | off, d :: rest =>
    match rfindCharAux c (off + d.utf8Size) rest with
    | some i => some i
    | none => if d = c then some off else none

/-- Model of Rust `str::rfind(char)` returning a byte offset. -/
def rfindCharB (c : Char) (hay : List Char) : Option Nat := rfindCharAux c 0 hay

/-- Drop exactly `n` leading bytes; `none` when `n` overruns the string
or falls inside a multi-byte character (a Rust slice panic). -/
def dropBytes : List Char → Nat → Option (List Char)
  | s, 0 => some s
  | [], _ + 1 => none
  | c :: rest, n + 1 =>
    if c.utf8Size ≤ n + 1 then dropBytes rest (n + 1 - c.utf8Size) else none

/-- Take exactly `n` leading bytes; `none` when `n` overruns the string
or falls inside a multi-byte character (a Rust slice panic). -/
def takeBytes : List Char → Nat → Option (List Char)
  | _, 0 => some []
  | [], _ + 1 => none
  | c :: rest, n + 1 =>
    if c.utf8Size ≤ n + 1 then (takeBytes rest (n + 1 - c.utf8Size)).map (fun t => c :: t)
    else none

/-- Model of the Rust slice `s[start..stop]` on a string: `none` models
the panics (start > stop, stop > len, or either bound not on a character
boundary). -/
def sliceB (s : List Char) (start stop : Nat) : Option (List Char) :=
  if start ≤ stop then (dropBytes s start).bind (fun t => takeBytes t (stop - start))
  else none

/-- Model of Rust `str::trim` (the whitespace actually occurring in the
embedded code paths is ASCII). -/
def trimChars (s : List Char) : List Char :=
  ((s.dropWhile Char.isWhitespace).reverse.dropWhile Char.isWhitespace).reverse

/-- Model of Rust `str::starts_with(char)`. -/
def startsWithChar (s : List Char) (c : Char) : Bool :=
  match s with
  | [] => false
  | d :: _ => d = c

/-- Opening brace character, written via its code point. -/
def lbrace : Char := Char.ofNat 123

/-- Closing brace character, written via its code point. -/
def rbrace : Char := Char.ofNat 125

/-- Helper for `hasSub`: does `needle` occur at some position of the
second argument? -/
def subOccurs (needle : List Char) : List Char → Bool
  | [] => needle.isEmpty
  | c :: rest => needle.isPrefixOf (c :: rest) || subOccurs needle rest

/-- Substring containment used to model Rust `str::contains` for the
error classifier and the fence detection. -/
def hasSub (hay needle : List Char) : Bool := subOccurs needle hay

/-- Model of `classify_error` from
rust/ai-report-generator/src/llm/client.rs (lines 236-265).  Rust
`to_lowercase` is modelled with `Char.toLower`; every pattern tested is
ASCII. -/
def classify_error (msg : List Char) : String :=
  let m := msg.map Char.toLower
  if hasSub m ("rate limit".toList) || hasSub m ("429".toList) then "rate_limit"
  else if hasSub m ("timeout".toList) || hasSub m ("timed out".toList)
      || hasSub m ("deadline".toList) then "timeout"
  else if hasSub m ("401".toList) || hasSub m ("403".toList)
      || hasSub m ("auth".toList) || hasSub m ("api key".toList) then "auth_error"
  else if hasSub m ("400".toList) || hasSub m ("422".toList)
      || hasSub m ("invalid".toList) then "invalid_request"
  else if hasSub m ("500".toList) || hasSub m ("502".toList)
      || hasSub m ("503".toList) || hasSub m ("server".toList) then "server_error"
  else if hasSub m ("connect".toList) || hasSub m ("dns".toList)
      || hasSub m ("network".toList) || hasSub m ("reset".toList) then "network_error"
  else "unknown_error"

/-- Pricing entry from rust/ai-report-generator/src/llm/pricing.rs:
per-million-token input and output prices (f64 modelled as ℚ). -/
structure PriceEntry where
  provider : String
  input : ℚ
  output : ℚ

/-- Model of `calculate_cost` from
rust/ai-report-generator/src/llm/pricing.rs (lines 43-51).  The lazily
loaded `PRICING` map is a parameter (its contents come from an external
JSON file, not from the source). -/
def calculate_cost (pricing : List (String × PriceEntry)) (model : String)
    (input_tokens output_tokens : Nat) : ℚ :=
  match pricing.lookup model with
  | some entry =>
      ((input_tokens : ℚ) * entry.input / 1000000) + ((output_tokens : ℚ) * entry.output / 1000000)
  | none => 0

/-- The generic request of rust/ai-report-generator/src/llm/mod.rs
(f32 temperature modelled as ℚ). -/
structure GenerateRequest where
  model : String
  system : List Char
  prompt : List Char
  temperature : ℚ
  max_tokens : Nat
  stage : String
deriving DecidableEq

/-- The generic response of rust/ai-report-generator/src/llm/mod.rs
(f64 cost modelled as ℚ). -/
structure GenerateResponse where
  content : List Char
  model : String
  input_tokens : Nat
  output_tokens : Nat
  cost_usd : ℚ
  finish_reason : String
  provider : String
deriving DecidableEq

/-- Model of the result path of `generate_once` from
rust/ai-report-generator/src/llm/client.rs (lines 24-144): the provider
adapter's outcome is a parameter; on success the client overwrites
`provider` with the logical provider name and `cost_usd` with the
pricing-table cost of the *response* model; on failure the error is
re-raised (classification and metrics are observability only). -/
def generate_once (pricing : List (String × PriceEntry)) (provider_name : String)
    (result : Except String GenerateResponse) : Except String GenerateResponse :=
  match result with
  | Except.ok resp =>
      Except.ok { resp with
        provider := provider_name,
        cost_usd := calculate_cost pricing resp.model resp.input_tokens resp.output_tokens }
  | Except.error err => Except.error err

/-- One content block of the Anthropic wire response
(rust/ai-report-generator/src/llm/anthropic.rs, lines 42-47). -/
structure AnthropicContent where
  content_type : String
  text : Option (List Char)

/-- Token usage of the Anthropic wire response (anthropic.rs 49-53). -/
structure AnthropicUsage where
  input_tokens : Nat
  output_tokens : Nat

/-- Parsed Anthropic wire response (anthropic.rs 34-40). -/
structure AnthropicResponse where
  content : List AnthropicContent
  model : String
  usage : AnthropicUsage
  stop_reason : Option String

/-- Model of the success path of `AnthropicProvider::generate`
(rust/ai-report-generator/src/llm/anthropic.rs, lines 112-130): builds
the generic response from the parsed wire response; text-typed blocks
are concatenated, `cost_usd` is left 0.0 and `provider` left empty. -/
def anthropic_build_response (resp : AnthropicResponse) : GenerateResponse :=
  { content :=
      (((resp.content.filter (fun c => c.content_type == "text")).filterMap
        (fun c => c.text)).flatten)
    model := resp.model
    input_tokens := resp.usage.input_tokens
    output_tokens := resp.usage.output_tokens
    cost_usd := 0
    finish_reason := resp.stop_reason.getD ""
    provider := "" }

/-- One choice of the OpenAI-compatible wire response
(rust/ai-report-generator/src/llm/openai.rs): optional message content
and optional finish reason (the lower-cased debug rendering is modelled
as the carried string). -/
structure OpenAIChoice where
  content : Option (List Char)
  finish_reason : Option String

/-- Token usage of the OpenAI-compatible wire response. -/
structure OpenAIUsage where
  prompt_tokens : Nat
  completion_tokens : Nat

/-- Parsed OpenAI-compatible wire response (openai.rs 71-89). -/
structure OpenAIChatResponse where
  choices : List OpenAIChoice
  model : String
  usage : Option OpenAIUsage

/-- Model of the success path of `OpenAIProvider::generate`
(rust/ai-report-generator/src/llm/openai.rs, lines 71-99): builds the
generic response from the parsed wire response; `cost_usd` is left 0.0
and `provider` left empty. -/
def openai_build_response (resp : OpenAIChatResponse) : GenerateResponse :=
  { content := (resp.choices.head?.bind (fun c => c.content)).getD []
    model := resp.model
    input_tokens := match resp.usage with | some u => u.prompt_tokens | none => 0
    output_tokens := match resp.usage with | some u => u.completion_tokens | none => 0
    cost_usd := 0
    finish_reason := (resp.choices.head?.bind (fun c => c.finish_reason)).getD ""
    provider := "" }

/-- Observable trace of one `generate_with_retry` run: final result,
number of `generate_once` calls made, number of retry-counter
increments, and the sleep durations (ms) in order. -/
structure RetryRun (ε ρ : Type) where
  result : Except ε ρ
  attempts : Nat
  retryIncrements : Nat
  sleepsMs : List Nat

/-- Backoff base of attempt `i`:
`min(Duration::from_secs(1) * 2^i, Duration::from_secs(10))` in
milliseconds (client.rs lines 181-182). -/
def backoffBaseMs (attempt : Nat) : Nat := min (1000 * 2 ^ attempt) 10000

/-- Loop body of `generate_with_retry`
(rust/ai-report-generator/src/llm/client.rs, lines 146-193).  The
outcome of the `generate_once` call of attempt `i` is `outcomes i`; the
`fastrand::u64(0..=cap)` draw of attempt `i` is modelled as
`rng i % (cap + 1)`.  The retry counter is incremented on a failure
whose attempt index is positive; a sleep of the capped base plus jitter
happens when `attempt < maxRetries - 1`. -/
def retryGo {ε ρ : Type} (maxRetries : Nat) (outcomes : Nat → Except ε ρ)
    (rng : Nat → Nat) (exhausted : ε) : Nat → Nat → Option ε → RetryRun ε ρ
  | 0, _, lastErr => ⟨Except.error (lastErr.getD exhausted), 0, 0, []⟩
  | fuel + 1, attempt, _ =>
    match outcomes attempt with
    | Except.ok v => ⟨Except.ok v, 1, 0, []⟩
    | Except.error e =>
      let inc := if 0 < attempt then 1 else 0
      let base := backoffBaseMs attempt
      let jitter := rng attempt % (base / 4 + 1)
      let rest := retryGo maxRetries outcomes rng exhausted fuel (attempt + 1) (some e)
      ⟨rest.result, rest.attempts + 1, rest.retryIncrements + inc,
        (if attempt < maxRetries - 1 then [base + jitter] else []) ++ rest.sleepsMs⟩

/-- Model of `generate_with_retry` (client.rs 146-193): three attempts
starting at index 0; when all fail, the last error is returned
(`exhausted` models the `unwrap_or_else` default, unreachable for a
positive budget). -/
def generate_with_retry {ε ρ : Type} (outcomes : Nat → Except ε ρ) (rng : Nat → Nat)
    (exhausted : ε) : RetryRun ε ρ :=
  retryGo 3 outcomes rng exhausted 3 0 none

/-- The client configuration of rust/ai-report-generator/src/llm/client.rs
(lines 15-21).  Each provider is modelled as an outcome oracle: for a
request, the result of the `generate_once` call of attempt `i`. -/
structure LlmClient (ρ : Type) where
  primary : GenerateRequest → Nat → Except String ρ
  fallback : Option (GenerateRequest → Nat → Except String ρ)
  primary_provider : String
  fallback_provider : String
  fallback_model : String

/-- Observable trace of one top-level `generate` call. -/
structure GenerateCall (ρ : Type) where
  result : Except String ρ
  fallbackCount : Nat
  primaryRun : RetryRun String ρ
  fallbackRun : Option (GenerateRequest × RetryRun String ρ)

/-- The default error of an empty retry budget (client.rs line 192). -/
def exhaustedMsg : String := "all retries exhausted"

/-- Model of `LlmClient::generate` (client.rs 195-233): retry the
primary; on terminal failure either increment the fallback counter once
and rerun `generate_with_retry` on the fallback provider with the
request's model replaced by the configured fallback model, or — with no
fallback configured — return the terminal error naming the primary
provider and the underlying cause. -/
def generate {ρ : Type} (client : LlmClient ρ) (req : GenerateRequest)
    (rngP rngF : Nat → Nat) : GenerateCall ρ :=
  let pr := generate_with_retry (client.primary req) rngP exhaustedMsg
  match pr.result with
  | Except.ok v => ⟨Except.ok v, 0, pr, none⟩
  | Except.error primary_err =>
    match client.fallback with
    | some fb =>
      let fallback_req : GenerateRequest := { req with model := client.fallback_model }
      let fr := generate_with_retry (fb fallback_req) rngF exhaustedMsg
      ⟨fr.result, 1, pr, some (fallback_req, fr)⟩
    | none =>
      ⟨Except.error ("primary provider " ++ client.primary_provider
        ++ " failed after retries: " ++ primary_err), 0, pr, none⟩

/-- The three-backtick fence pattern (3 bytes). -/
def fence3 : List Char := "```".toList

/-- The json-tagged fence pattern (7 bytes). -/
def fenceJson : List Char := "```json".toList

/-- Third branch of `extract_json`
(rust/ai-report-generator/src/pipeline/analyze.rs, lines 160-165): when
both a first opening brace and a last closing brace exist, return the
byte slice `content[start..=end]` (which panics when the last closing
brace sits before the first opening brace); otherwise return the input
unchanged. -/
def extractJsonBrace (content : List Char) : Option (List Char) :=
  match findSubB [lbrace] content, rfindCharB rbrace content with
  | some s, some e => sliceB content s (e + 1)
  | _, _ => some content

/-- Second branch of `extract_json` (analyze.rs 152-159): a plain
three-backtick fenced block whose trimmed body starts with an opening
brace is returned; otherwise fall through to the brace branch. -/
def extractJsonFence (content : List Char) : Option (List Char) :=
  match findSubB fence3 content with
  | some s =>
    match (dropBytes content (s + 3)).bind (fun t => findSubB fence3 t) with
    | some e =>
      match (sliceB content (s + 3) (s + 3 + e)).map trimChars with
      | some inner =>
        if startsWithChar inner lbrace then some inner else extractJsonBrace content
      | none => none
    | none => extractJsonBrace content
  | none => extractJsonBrace content

/-- Model of `extract_json` from
rust/ai-report-generator/src/pipeline/analyze.rs (lines 146-166): first
a json-tagged fence, then a plain fence whose body starts with an
opening brace, then the first-to-last brace span, else the input
unchanged.  A `none` result models a panic of the underlying slicing. -/
def extract_json (content : List Char) : Option (List Char) :=
  match findSubB fenceJson content with
  | some s =>
    match (dropBytes content (s + 7)).bind (fun t => findSubB fence3 t) with
    | some e => (sliceB content (s + 7) (s + 7 + e)).map trimChars
    | none => extractJsonFence content
  | none => extractJsonFence content

/-- JSON values, for the model of `serde_json` deserialization. -/
inductive Json where
  | jnull : Json
  | jbool : Bool → Json
  | jnum : ℚ → Json
  | jstr : List Char → Json
  | jarr : List Json → Json
  | jobj : List (List Char × Json) → Json

/-- JSON insignificant whitespace (space, tab, line feed, carriage
return). -/
def jsonWs (c : Char) : Bool :=
  c = ' ' || c = Char.ofNat 9 || c = Char.ofNat 10 || c = Char.ofNat 13

/-- Drop leading JSON whitespace. -/
def skipWs (s : List Char) : List Char := s.dropWhile jsonWs

/-- Value of a hexadecimal digit. -/
def parseHexDigit (c : Char) : Option Nat :=
  if c.isDigit then some (c.toNat - 48)
  else if 97 ≤ c.toNat && c.toNat ≤ 102 then some (c.toNat - 87)
  else if 65 ≤ c.toNat && c.toNat ≤ 70 then some (c.toNat - 55)
  else none

/-- Parse the body of a JSON string after the opening quote; returns the
decoded characters and the remaining input after the closing quote.
Escapes are decoded; surrogate pairs are not modelled (no input of this
development needs them). -/
def parseJString : Nat → List Char → Option (List Char × List Char)
  | 0, _ => none
  | _ + 1, [] => none
  | fuel + 1, c :: rest =>
    if c = Char.ofNat 34 then some ([], rest)
    else if c = Char.ofNat 92 then
      match rest with
      | [] => none
      | e :: rest2 =>
        if e = 'u' then
          match rest2 with
          | h1 :: h2 :: h3 :: h4 :: rest3 =>
            match parseHexDigit h1, parseHexDigit h2, parseHexDigit h3, parseHexDigit h4 with
            | some a, some b, some c3, some d =>
              (parseJString fuel rest3).map
                (fun p => (Char.ofNat (((a * 16 + b) * 16 + c3) * 16 + d) :: p.1, p.2))
            | _, _, _, _ => none
          | _ => none
        else
          match
            (if e = Char.ofNat 34 then some (Char.ofNat 34)
             else if e = Char.ofNat 92 then some (Char.ofNat 92)
             else if e = '/' then some '/'
             else if e = 'b' then some (Char.ofNat 8)
             else if e = 'f' then some (Char.ofNat 12)
             else if e = 'n' then some (Char.ofNat 10)
             else if e = 'r' then some (Char.ofNat 13)
             else if e = 't' then some (Char.ofNat 9)
             else none) with
          | some ch => (parseJString fuel rest2).map (fun p => (ch :: p.1, p.2))
          | none => none
    else (parseJString fuel rest).map (fun p => (c :: p.1, p.2))

/-- Numeric value of a digit run. -/
def digitsVal (ds : List Char) : Nat := ds.foldl (fun a c => a * 10 + (c.toNat - 48)) 0

/-- Parse a JSON number (optional minus, integer part, optional
fraction, optional exponent) into an exact rational. -/
def parseNumber (s : List Char) : Option (ℚ × List Char) :=
  let signedTail := match s with
    | c :: rest => if c = '-' then (true, rest) else (false, s)
    | [] => (false, s)
  let neg := signedTail.1
  let s1 := signedTail.2
  let intSplit := s1.span Char.isDigit
  if intSplit.1.isEmpty then none
  else
    let intPart : ℚ := (digitsVal intSplit.1 : ℚ)
    let fracStep : Option (ℚ × List Char) :=
      match intSplit.2 with
      | c :: rest =>
        if c = '.' then
          let fs := rest.span Char.isDigit
          if fs.1.isEmpty then none
          else some (intPart + (digitsVal fs.1 : ℚ) / ((10 : ℚ) ^ fs.1.length), fs.2)
        else some (intPart, intSplit.2)
      | [] => some (intPart, intSplit.2)
    match fracStep with
    | none => none
    | some (mant, s2) =>
      let expStep : Option (ℚ × List Char) :=
        match s2 with
        | c :: rest =>
          if c = 'e' || c = 'E' then
            let signedExp := match rest with
              | d :: r2 => if d = '-' then (true, r2) else if d = '+' then (false, r2) else (false, rest)
              | [] => (false, rest)
            let es := signedExp.2.span Char.isDigit
            if es.1.isEmpty then none
            else
              let p : ℚ := (10 : ℚ) ^ (digitsVal es.1)
              some (if signedExp.1 then mant / p else mant * p, es.2)
          else some (mant, s2)
        | [] => some (mant, s2)
      match expStep with
      | none => none
      | some (v, s3) => some ((if neg then -v else v), s3)

/-- Match a literal keyword tail (after its first character). -/
def stripLit (lit : String) (s : List Char) (v : Json) : Option (Json × List Char) :=
  if lit.toList.isPrefixOf s then some (v, s.drop lit.length) else none

mutual

/-- Fuel-indexed JSON value parser. -/
def parseValue : Nat → List Char → Option (Json × List Char)
  | 0, _ => none
  | fuel + 1, input =>
    match skipWs input with
    | [] => none
    | c :: rest =>
      if c = Char.ofNat 34 then
        (parseJString (rest.length + 1) rest).map (fun p => (Json.jstr p.1, p.2))
      else if c = lbrace then parseObjBody fuel rest true
      else if c = '[' then parseArrBody fuel rest true
      else if c = 'n' then stripLit "ull" rest Json.jnull
      else if c = 't' then stripLit "rue" rest (Json.jbool true)
      else if c = 'f' then stripLit "alse" rest (Json.jbool false)
      else (parseNumber (c :: rest)).map (fun p => (Json.jnum p.1, p.2))

/-- Parse the members of an object after the opening brace (`first`) or
after a separating comma (not `first`, so a closing brace is not
accepted immediately). -/
def parseObjBody : Nat → List Char → Bool → Option (Json × List Char)
  | 0, _, _ => none
  | fuel + 1, input, first =>
    match skipWs input with
    | [] => none
    | c :: rest =>
      if first && c = rbrace then some (Json.jobj [], rest)
      else if c = Char.ofNat 34 then
        match parseJString (rest.length + 1) rest with
        | none => none
        | some (key, r1) =>
          match skipWs r1 with
          | ':' :: r2 =>
            match parseValue fuel r2 with
            | none => none
            | some (v, r3) =>
              match skipWs r3 with
              | ',' :: r4 =>
                match parseObjBody fuel r4 false with
                | some (Json.jobj fields, r5) => some (Json.jobj ((key, v) :: fields), r5)
                | _ => none
              | c2 :: r4 => if c2 = rbrace then some (Json.jobj [(key, v)], r4) else none
              | [] => none
          | _ => none
      else none

/-- Parse the elements of an array after the opening bracket (`first`)
or after a separating comma. -/
def parseArrBody : Nat → List Char → Bool → Option (Json × List Char)
  | 0, _, _ => none
  | fuel + 1, input, first =>
    match skipWs input with
    | [] => none
    | c :: rest =>
      if first && c = ']' then some (Json.jarr [], rest)
      else
        match parseValue fuel (c :: rest) with
        | none => none
        | some (v, r1) =>
          match skipWs r1 with
          | ',' :: r2 =>
            match parseArrBody fuel r2 false with
            | some (Json.jarr xs, r3) => some (Json.jarr (v :: xs), r3)
            | _ => none
          | c2 :: r2 => if c2 = ']' then some (Json.jarr [v], r2) else none
          | [] => none

end

/-- Model of `serde_json` top-level parsing: one value, then nothing but
whitespace. -/
def jsonParse (s : List Char) : Option Json :=
  match parseValue (s.length + 1) s with
  | some (v, rest) => if (skipWs rest).isEmpty then some v else none
  | none => none

/-- Error enum of rust/ai-report-generator/src/error.rs (payloads
modelled as strings). -/
inductive AppError where
  | validation : String → AppError
  | notFound : String → AppError
  | database : String → AppError
  | llm : String → AppError
  | pipeline : String → AppError
  | internal : String → AppError

/-- One trend of the analyze stage
(rust/ai-report-generator/src/pipeline/analyze.rs, lines 18-23). -/
structure Trend where
  indicator : List Char
  direction : List Char
  description : List Char
deriving DecidableEq

/-- Output of the analyze stage (analyze.rs 8-16; this file's version
of the struct carries no provider field). -/
structure AnalysisResult where
  trends : List Trend
  correlations : List (List Char)
  key_findings : List (List Char)
  input_tokens : Nat
  output_tokens : Nat
  cost_usd : ℚ
deriving DecidableEq

/-- One section of the narrative
(rust/ai-report-generator/src/pipeline/generate.rs, lines 19-23). -/
structure NarrativeSection where
  heading : List Char
  content : List Char
deriving DecidableEq

/-- Output of the generate stage (generate.rs 9-17; this file's version
of the struct carries no provider field). -/
structure NarrativeResult where
  title : List Char
  executive_summary : List Char
  sections : List NarrativeSection
  input_tokens : Nat
  output_tokens : Nat
  cost_usd : ℚ
deriving DecidableEq

/-- The serde target of `parse_narrative_response` (generate.rs
110-115): every field optional. -/
structure RawNarrative where
  title : Option (List Char)
  executive_summary : Option (List Char)
  sections : Option (List NarrativeSection)

/-- The serde target of `parse_analysis_response` (analyze.rs 119-124):
every field optional. -/
structure RawAnalysis where
  trends : Option (List Trend)
  correlations : Option (List (List Char))
  key_findings : Option (List (List Char))

/-- Decode a JSON string. -/
def jsonString? : Json → Option (List Char)
  | Json.jstr s => some s
  | _ => none

/-- Serde semantics of an `Option` struct field: absent or `null` gives
`none`; present with the wrong shape is a deserialization error
(modelled by the outer `none`). -/
def optField {α : Type} (fields : List (List Char × Json)) (name : String)
    (dec : Json → Option α) : Option (Option α) :=
  match fields.lookup (name.toList) with
  | none => some none
  | some Json.jnull => some none
  | some v => (dec v).map some

/-- Decode a JSON array elementwise. -/
def decodeList {α : Type} (dec : Json → Option α) : Json → Option (List α)
  | Json.jarr xs => xs.mapM dec
  | _ => none

/-- Decode one narrative section (both fields required strings). -/
def decodeSection : Json → Option NarrativeSection
  | Json.jobj fields =>
    match fields.lookup ("heading".toList), fields.lookup ("content".toList) with
    | some hv, some cv =>
      match jsonString? hv, jsonString? cv with
      | some h, some c => some ⟨h, c⟩
      | _, _ => none
    | _, _ => none
  | _ => none

/-- Decode one trend (all three fields required strings). -/
def decodeTrend : Json → Option Trend
  | Json.jobj fields =>
    match fields.lookup ("indicator".toList), fields.lookup ("direction".toList),
        fields.lookup ("description".toList) with
    | some iv, some dv, some sv =>
      match jsonString? iv, jsonString? dv, jsonString? sv with
      | some i, some d, some s => some ⟨i, d, s⟩
      | _, _, _ => none
    | _, _, _ => none
  | _ => none

/-- Model of `serde_json::from_str::<RawNarrative>`; `none` is a
deserialization error. -/
def serdeRawNarrative (s : List Char) : Option RawNarrative :=
  match jsonParse s with
  | some (Json.jobj fields) =>
    match optField fields "title" jsonString?,
        optField fields "executive_summary" jsonString?,
        optField fields "sections" (decodeList decodeSection) with
    | some t, some e, some sec => some ⟨t, e, sec⟩
    | _, _, _ => none
  | _ => none

/-- Model of `serde_json::from_str::<RawAnalysis>`; `none` is a
deserialization error. -/
def serdeRawAnalysis (s : List Char) : Option RawAnalysis :=
  match jsonParse s with
  | some (Json.jobj fields) =>
    match optField fields "trends" (decodeList decodeTrend),
        optField fields "correlations" (decodeList jsonString?),
        optField fields "key_findings" (decodeList jsonString?) with
    | some t, some c, some k => some ⟨t, c, k⟩
    | _, _, _ => none
  | _ => none

/-- Model of `parse_narrative_response`
(rust/ai-report-generator/src/pipeline/generate.rs, lines 102-140):
extract the JSON, deserialize leniently, and on a deserialization error
degrade to the default title, a 500-character excerpt summary and a
single raw-text section — both arms return `Ok`.  The outer `none`
models the panic that `extract_json` can raise. -/
def parse_narrative_response (content : List Char) (input_tokens output_tokens : Nat)
    (cost_usd : ℚ) : Option (Except AppError NarrativeResult) :=
  match extract_json content with
  | none => none
  | some json_str =>
    some (Except.ok (
      match serdeRawNarrative json_str with
      | some raw =>
        { title := raw.title.getD ("Economic Report".toList)
          executive_summary := raw.executive_summary.getD ("Analysis of economic indicators.".toList)
          sections := raw.sections.getD []
          input_tokens := input_tokens
          output_tokens := output_tokens
          cost_usd := cost_usd }
      | none =>
        { title := ("Economic Report".toList)
          executive_summary := content.take 500
          sections := [⟨("Analysis".toList), content⟩]
          input_tokens := input_tokens
          output_tokens := output_tokens
          cost_usd := cost_usd }))

/-- Model of `parse_analysis_response`
(rust/ai-report-generator/src/pipeline/analyze.rs, lines 111-144):
extract the JSON, deserialize leniently, and on a deserialization error
degrade to a result whose `key_findings` holds a 500-character excerpt
of the raw text — both arms return `Ok`.  The outer `none` models the
panic that `extract_json` can raise. -/
def parse_analysis_response (content : List Char) (input_tokens output_tokens : Nat)
    (cost_usd : ℚ) : Option (Except AppError AnalysisResult) :=
  match extract_json content with
  | none => none
  | some json_str =>
    some (Except.ok (
      match serdeRawAnalysis json_str with
      | some raw =>
        { trends := raw.trends.getD []
          correlations := raw.correlations.getD []
          key_findings := raw.key_findings.getD []
          input_tokens := input_tokens
          output_tokens := output_tokens
          cost_usd := cost_usd }
      | none =>
        { trends := []
          correlations := []
          key_findings := [content.take 500]
          input_tokens := input_tokens
          output_tokens := output_tokens
          cost_usd := cost_usd }))

/-- Calendar date, modelling `chrono::NaiveDate`. -/
structure NaiveDate where
  year : Int
  month : Nat
  day : Nat
deriving DecidableEq

/-- One data point of a time series
(rust/ai-report-generator/src/db/data_points.rs; f64 value as ℚ). -/
structure DataPoint where
  observation_date : NaiveDate
  value : ℚ

/-- One indicator's series (db/data_points.rs, lines 14-20). -/
structure IndicatorData where
  code : String
  name : String
  unit : String
  frequency : String
  values : List DataPoint

/-- Output of the retrieve stage
(rust/ai-report-generator/src/pipeline/retrieve.rs, lines 8-11). -/
structure RetrieveResult where
  indicators : List IndicatorData
  total_data_points : Nat

namespace Format

/-- Analyze-stage output as consumed by
rust/ai-report-generator/src/pipeline/format.rs: this file's revision of
`AnalysisResult` additionally carries the serving provider's name (see
its use at line 56 and its test construction at lines 95-107). -/
structure AnalysisResult where
  trends : List Trend
  correlations : List (List Char)
  key_findings : List (List Char)
  input_tokens : Nat
  output_tokens : Nat
  cost_usd : ℚ
  provider : String

/-- Generate-stage output as consumed by format.rs: this file's revision
of `NarrativeResult` additionally carries the serving provider's name
(line 57 and lines 108-125). -/
structure NarrativeResult where
  title : List Char
  executive_summary : List Char
  sections : List NarrativeSection
  input_tokens : Nat
  output_tokens : Nat
  cost_usd : ℚ
  provider : String

/-- Input bundle of `format_report`
(rust/ai-report-generator/src/pipeline/format.rs, lines 30-39; the
`Duration` is carried in milliseconds). -/
structure FormatParams where
  retrieve_result : RetrieveResult
  analysis : AnalysisResult
  narrative : NarrativeResult
  indicators_requested : List String
  start_date : NaiveDate
  end_date : NaiveDate
  durationMs : Nat
  trace_id : String

/-- The final report (format.rs 13-28); the random `Uuid` is modelled
as a number. -/
structure Report where
  id : Nat
  title : List Char
  executive_summary : List Char
  sections : List NarrativeSection
  indicators_used : List String
  time_range_start : NaiveDate
  time_range_end : NaiveDate
  total_data_points : Nat
  total_tokens : Nat
  total_cost_usd : ℚ
  providers_used : List String
  generation_duration_ms : Nat
  trace_id : String

/-- Model of `format_report` (format.rs 50-80).  `total_tokens` is a
`u32` sum, hence reduced modulo `2^32`; `Uuid::new_v4` is the `id`
parameter. -/
def format_report (params : FormatParams) (id : Nat) : Except AppError Report :=
  let total_tokens :=
    (params.analysis.input_tokens + params.analysis.output_tokens
      + params.narrative.input_tokens + params.narrative.output_tokens) % 2 ^ 32
  let providers_used :=
    [params.analysis.provider]
      ++ (if params.narrative.provider ≠ params.analysis.provider
          then [params.narrative.provider] else [])
  Except.ok
    { id := id
      title := params.narrative.title
      executive_summary := params.narrative.executive_summary
      sections := params.narrative.sections
      indicators_used := params.indicators_requested
      time_range_start := params.start_date
      time_range_end := params.end_date
      total_data_points := params.retrieve_result.total_data_points
      total_tokens := total_tokens
      total_cost_usd := params.analysis.cost_usd + params.narrative.cost_usd
      providers_used := providers_used
      generation_duration_ms := params.durationMs
      trace_id := params.trace_id }

end Format

lemma findSubAux_eq_none (needle : List Char) :
    ∀ (hay : List Char), subOccurs needle hay = false → ∀ off, findSubAux needle off hay = none := by
  intro hay
  induction hay with
  | nil =>
    intro h off
    unfold subOccurs at h
    unfold findSubAux
    simp [h]
  | cons c rest ih =>
    intro h off
    unfold subOccurs at h
    rw [Bool.or_eq_false_iff] at h
    unfold findSubAux
    rw [if_neg]
    · exact ih h.2 _
    · simp [h.1]

lemma subOccurs_eq_false_mono {n1 n2 : List Char} (hpre : n1.isPrefixOf n2 = true) :
    ∀ (hay : List Char), subOccurs n1 hay = false → subOccurs n2 hay = false := by
  intro hay
  induction hay with
  | nil =>
    intro h
    unfold subOccurs at h ⊢
    cases hn : n2 with
    | nil =>
      subst hn
      rw [List.isPrefixOf_iff_prefix] at hpre
      rw [List.prefix_nil] at hpre
      subst hpre
      exact h
    | cons _ _ => simp [List.isEmpty]
  | cons c rest ih =>
    intro h
    unfold subOccurs at h ⊢
    rw [Bool.or_eq_false_iff] at h ⊢
    refine ⟨?_, ih h.2⟩
    by_contra hq
    rw [Bool.not_eq_false, List.isPrefixOf_iff_prefix] at hq
    rw [List.isPrefixOf_iff_prefix] at hpre
    have : n1.isPrefixOf (c :: rest) = true := by
      rw [List.isPrefixOf_iff_prefix]
      exact hpre.trans hq
    rw [h.1] at this
    exact Bool.false_ne_true this

lemma findSubAux_single_none (c : Char) :
    ∀ (hay : List Char), hay.contains c = false → ∀ off, findSubAux [c] off hay = none := by
  intro hay
  induction hay with
  | nil =>
    intro h off
    unfold findSubAux
    simp [List.isEmpty]
  | cons d rest ih =>
    intro h off
    rw [List.contains_cons, Bool.or_eq_false_iff] at h
    unfold findSubAux
    rw [if_neg]
    · exact ih h.2 _
    · simp only [List.isPrefixOf, Bool.and_eq_true, beq_iff_eq]
      intro hcd
      rw [hcd.1] at h
      simp at h

lemma rfindCharAux_none (c : Char) :
    ∀ (hay : List Char), hay.contains c = false → ∀ off, rfindCharAux c off hay = none := by
  intro hay
  induction hay with
  | nil => intro h off; rfl
  | cons d rest ih =>
    intro h off
    rw [List.contains_cons, Bool.or_eq_false_iff] at h
    unfold rfindCharAux
    rw [ih h.2]
    have : ¬ d = c := by
      intro hdc
      rw [hdc] at h
      simp at h
    simp [this]

lemma extract_json_unchanged {content : List Char}
    (hf : hasSub content fence3 = false) (hb : content.contains lbrace = false) :
    extract_json content = some content := by
  have hJson : findSubB fenceJson content = none :=
    findSubAux_eq_none _ _ (subOccurs_eq_false_mono (by decide) _ hf) 0
  have h3 : findSubB fence3 content = none := findSubAux_eq_none _ _ hf 0
  have hbr : findSubB [lbrace] content = none := findSubAux_single_none _ _ hb 0
  unfold extract_json extractJsonFence extractJsonBrace
  rw [hJson, h3, hbr]

/-- C3: the claim that `truncate(S, N)` always has byte length at most
`N` fails on the code: the two-byte string "é" truncated to budget 1 is
returned whole because its only character starts at byte offset 0 < 1,
so the result has 2 bytes.  (It does end on a character boundary, and a
string within budget is returned unchanged — but the byte bound is
violated.) -/
theorem truncate_c3_eval :
    truncate (String.toList "é") 1 = String.toList "é"
    ∧ lenBytes (truncate (String.toList "é") 1) = 2
    ∧ ¬ lenBytes (truncate (String.toList "é") 1) ≤ 1 := by
  decide

/-- C4: `classify_error` is total into the fixed seven-category set,
deterministic, and a message containing both "429" and "server" is
classified `rate_limit` (the rate-limit check precedes the server-error
check). -/
theorem classify_error_c4 :
    (∀ msg : List Char,
      classify_error msg ∈ (["rate_limit", "timeout", "auth_error", "invalid_request",
        "server_error", "network_error", "unknown_error"] : List String))
    ∧ (∀ m1 m2 : List Char, m1 = m2 → classify_error m1 = classify_error m2)
    ∧ classify_error (String.toList "Error 429 from server") = "rate_limit" := by
  refine ⟨?_, ?_, ?_⟩
  · intro msg
    unfold classify_error
    dsimp only
    split_ifs <;> simp
  · intro m1 m2 h
    rw [h]
  · decide

/-- Witness for C4 at a concrete input, discharging the equality
hypothesis of the determinism conjunct. -/
theorem classify_error_c4_witness :
    classify_error (String.toList "boom") = classify_error (String.toList "boom") :=
  classify_error_c4.2.1 (String.toList "boom") (String.toList "boom") rfl

/-- C5: the minimal object is extracted identically from prose, from a
json-tagged fence and from a plain fence; and an input with no braces
and no fences is returned unchanged. -/
theorem extract_json_c5 :
    extract_json (String.toList "The result is \x7b\"a\":1\x7d and that is it.")
      = some (String.toList "\x7b\"a\":1\x7d")
    ∧ extract_json (String.toList "Here:\n```json\n\x7b\"a\":1\x7d\n```\nDone.")
      = some (String.toList "\x7b\"a\":1\x7d")
    ∧ extract_json (String.toList "```\n\x7b\"a\":1\x7d\n```")
      = some (String.toList "\x7b\"a\":1\x7d")
    ∧ (∀ content : List Char, hasSub content fence3 = false →
        content.contains lbrace = false → content.contains rbrace = false →
        extract_json content = some content) := by
  refine ⟨by decide, by decide, by decide, ?_⟩
  intro content hf hb _
  exact extract_json_unchanged hf hb

/-- Witness for C5 at a concrete input with no braces and no fences. -/
theorem extract_json_c5_witness :
    extract_json (String.toList "No JSON here at all") = some (String.toList "No JSON here at all") :=
  extract_json_c5.2.2.2 (String.toList "No JSON here at all") (by decide) (by decide) (by decide)

/-- C6: `extract_json` is not total: on an input whose last closing
brace (byte offset 3) precedes its first opening brace (byte offset 10)
the third branch takes the slice `content[10..=3]`, which panics
(modelled by `none`). -/
theorem extract_json_c6_eval :
    findSubB [lbrace] (String.toList "end\x7d then \x7bstart") = some 10
    ∧ rfindCharB rbrace (String.toList "end\x7d then \x7bstart") = some 3
    ∧ extract_json (String.toList "end\x7d then \x7bstart") = none := by
  decide

/-- C9: for a model present in the pricing table the cost is the exact
per-million formula; for an absent model the cost is 0 (returned
normally). -/
theorem calculate_cost_c9 :
    ∀ (pricing : List (String × PriceEntry)) (model : String) (input_tokens output_tokens : Nat),
      (∀ entry, pricing.lookup model = some entry →
        calculate_cost pricing model input_tokens output_tokens
          = (input_tokens : ℚ) * entry.input / 1000000 + (output_tokens : ℚ) * entry.output / 1000000)
      ∧ (pricing.lookup model = none →
        calculate_cost pricing model input_tokens output_tokens = 0) := by
  intro pricing model i o
  constructor
  · intro entry h
    unfold calculate_cost
    rw [h]
  · intro h
    unfold calculate_cost
    rw [h]

/-- Witness for C9 on a one-entry table: a known model prices by the
formula, an unknown model prices at 0. -/
theorem calculate_cost_c9_witness :
    calculate_cost [("gpt-4.1", PriceEntry.mk "openai" 2 8)] "gpt-4.1" 1000000 500000 = 6
    ∧ calculate_cost [("gpt-4.1", PriceEntry.mk "openai" 2 8)] "nonexistent-model-xyz" 1000 1000 = 0 := by
  constructor
  · have h := (calculate_cost_c9 [("gpt-4.1", PriceEntry.mk "openai" 2 8)] "gpt-4.1"
      1000000 500000).1 (PriceEntry.mk "openai" 2 8) rfl
    rw [h]
    norm_num
  · exact (calculate_cost_c9 [("gpt-4.1", PriceEntry.mk "openai" 2 8)]
      "nonexistent-model-xyz" 1000 1000).2 rfl

/-- C8: both provider adapters always hand back an empty provider name
and a zero cost, and the client's `generate_once` overwrites exactly
those two fields on success — the provider with the logical name it was
given, the cost from the pricing table applied to the response's model
and token counts (never taken from the remote response). -/
theorem provider_fill_c8 :
    (∀ resp : AnthropicResponse,
      (anthropic_build_response resp).provider = ""
      ∧ (anthropic_build_response resp).cost_usd = 0)
    ∧ (∀ resp : OpenAIChatResponse,
      (openai_build_response resp).provider = ""
      ∧ (openai_build_response resp).cost_usd = 0)
    ∧ (∀ (pricing : List (String × PriceEntry)) (name : String) (raw : GenerateResponse),
      generate_once pricing name (Except.ok raw)
        = Except.ok { raw with
            provider := name,
            cost_usd := calculate_cost pricing raw.model raw.input_tokens raw.output_tokens }) :=
  ⟨fun _ => ⟨rfl, rfl⟩, fun _ => ⟨rfl, rfl⟩, fun _ _ _ => rfl⟩

/-- Concrete format inputs whose token counts sum to 2^32: two u32
half-range analysis counts. -/
def c7ParamsBig : Format.FormatParams :=
  { retrieve_result := { indicators := [], total_data_points := 3 },
    analysis :=
      { trends := [], correlations := [], key_findings := [],
        input_tokens := 2 ^ 31, output_tokens := 2 ^ 31, cost_usd := 1, provider := "openai" },
    narrative :=
      { title := [], executive_summary := [], sections := [],
        input_tokens := 0, output_tokens := 0, cost_usd := 2, provider := "anthropic" },
    indicators_requested := [],
    start_date := { year := 2024, month := 1, day := 1 },
    end_date := { year := 2024, month := 1, day := 2 },
    durationMs := 5,
    trace_id := "t" }

/-- Concrete format inputs with realistic token counts. -/
def c7ParamsSmall : Format.FormatParams :=
  { retrieve_result := { indicators := [], total_data_points := 250 },
    analysis :=
      { trends := [], correlations := [], key_findings := [],
        input_tokens := 500, output_tokens := 200, cost_usd := 1, provider := "openai" },
    narrative :=
      { title := [], executive_summary := [], sections := [],
        input_tokens := 800, output_tokens := 400, cost_usd := 2, provider := "openai" },
    indicators_requested := [],
    start_date := { year := 2024, month := 1, day := 1 },
    end_date := { year := 2024, month := 1, day := 2 },
    durationMs := 5,
    trace_id := "t" }

/-- The report produced from the realistic inputs (the `getD` default is
never taken: `format_report` always returns `Ok`). -/
def c7Report : Format.Report :=
  (Format.format_report c7ParamsSmall 7).toOption.getD
    { id := 0, title := [], executive_summary := [], sections := [], indicators_used := [],
      time_range_start := { year := 0, month := 0, day := 0 },
      time_range_end := { year := 0, month := 0, day := 0 },
      total_data_points := 0, total_tokens := 0, total_cost_usd := 0, providers_used := [],
      generation_duration_ms := 0, trace_id := "" }

/-- C7 counterexample: `total_tokens` is a `u32` sum, so when the four
counts add to 2^32 the stored total wraps to 0 and is not the
mathematical sum. -/
theorem format_report_c7_counterexample :
    (Format.format_report c7ParamsBig 0).map Format.Report.total_tokens = Except.ok 0
    ∧ c7ParamsBig.analysis.input_tokens + c7ParamsBig.analysis.output_tokens
        + c7ParamsBig.narrative.input_tokens + c7ParamsBig.narrative.output_tokens ≠ 0 := by
  constructor
  · rfl
  · decide

/-- C7 as amended: `format_report` always succeeds, `total_tokens` is
the sum of the two stages' token counts reduced modulo 2^32 (and the
exact sum whenever that sum fits in a u32), `total_cost_usd` is the sum
of the two stages' costs, and `providers_used` lists the analysis
provider first with the narrative provider appended only when different
— so it has no duplicates. -/
theorem format_report_c7 :
    ∀ (params : Format.FormatParams) (id : Nat) (r : Format.Report),
      Format.format_report params id = Except.ok r →
      r.total_tokens = (params.analysis.input_tokens + params.analysis.output_tokens
          + params.narrative.input_tokens + params.narrative.output_tokens) % 2 ^ 32
      ∧ (params.analysis.input_tokens + params.analysis.output_tokens
          + params.narrative.input_tokens + params.narrative.output_tokens < 2 ^ 32 →
          r.total_tokens = params.analysis.input_tokens + params.analysis.output_tokens
            + params.narrative.input_tokens + params.narrative.output_tokens)
      ∧ r.total_cost_usd = params.analysis.cost_usd + params.narrative.cost_usd
      ∧ r.providers_used = [params.analysis.provider]
          ++ (if params.narrative.provider ≠ params.analysis.provider
              then [params.narrative.provider] else [])
      ∧ r.providers_used.Nodup
      ∧ r.providers_used.head? = some params.analysis.provider := by
  intro params id r h
  unfold Format.format_report at h
  rw [Except.ok.injEq] at h
  subst h
  refine ⟨rfl, ?_, rfl, rfl, ?_, ?_⟩
  · intro hlt
    exact Nat.mod_eq_of_lt hlt
  · by_cases hp : params.narrative.provider = params.analysis.provider
    · simp [hp]
    · simp [hp]
      exact fun hq => hp hq.symm
  · by_cases hp : params.narrative.provider = params.analysis.provider
    · simp [hp]
    · simp [hp]

/-- Witness for C7: on concrete realistic inputs the stored total is the
exact sum and the single shared provider is listed without
duplicates. -/
theorem format_report_c7_witness :
    c7Report.total_tokens = 1900 ∧ c7Report.providers_used.Nodup := by
  have h := format_report_c7 c7ParamsSmall 7 c7Report rfl
  exact ⟨h.2.1 (by decide), h.2.2.2.2.1⟩

lemma retryRun_facts {ε ρ : Type} (outcomes : Nat → Except ε ρ) (rng : Nat → Nat) (ex : ε) :
    (generate_with_retry outcomes rng ex).attempts ≤ 3
    ∧ (generate_with_retry outcomes rng ex).retryIncrements
        = (List.range (generate_with_retry outcomes rng ex).attempts).countP
            (fun i => decide (0 < i) && !(outcomes i).isOk)
    ∧ (generate_with_retry outcomes rng ex).sleepsMs
        = (List.range ((generate_with_retry outcomes rng ex).attempts - 1)).map
            (fun i => backoffBaseMs i + rng i % (backoffBaseMs i / 4 + 1))
    ∧ (∀ e0 e1 e2, outcomes 0 = Except.error e0 → outcomes 1 = Except.error e1 →
        outcomes 2 = Except.error e2 →
        (generate_with_retry outcomes rng ex).attempts = 3
        ∧ (generate_with_retry outcomes rng ex).result = Except.error e2)
    ∧ (∀ v, (generate_with_retry outcomes rng ex).result = Except.ok v →
        ∃ i, i < 3 ∧ outcomes i = Except.ok v) := by
  rcases h0 : outcomes 0 with e0 | v0
  · rcases h1 : outcomes 1 with e1 | v1
    · rcases h2 : outcomes 2 with e2 | v2
      · refine ⟨?_, ?_, ?_, ?_, ?_⟩
        · simp [generate_with_retry, retryGo, h0, h1, h2]
        · simp [generate_with_retry, retryGo, h0, h1, h2, List.range_succ, Except.isOk,
            Except.toBool, List.countP_cons]
        · simp [generate_with_retry, retryGo, h0, h1, h2, List.range_succ]
        · intro f0 f1 f2 g0 g1 g2
          injection g2 with he
          constructor
          · simp [generate_with_retry, retryGo, h0, h1, h2]
          · rw [← he]
            simp [generate_with_retry, retryGo, h0, h1, h2]
        · intro v hv
          simp [generate_with_retry, retryGo, h0, h1, h2] at hv
      · refine ⟨?_, ?_, ?_, ?_, ?_⟩
        · simp [generate_with_retry, retryGo, h0, h1, h2]
        · simp [generate_with_retry, retryGo, h0, h1, h2, List.range_succ, Except.isOk,
            Except.toBool, List.countP_cons]
        · simp [generate_with_retry, retryGo, h0, h1, h2, List.range_succ]
        · intro f0 f1 f2 g0 g1 g2
          exact absurd g2 (by simp)
        · intro v hv
          simp [generate_with_retry, retryGo, h0, h1, h2] at hv
          exact ⟨2, by omega, by rw [h2, hv]⟩
    · refine ⟨?_, ?_, ?_, ?_, ?_⟩
      · simp [generate_with_retry, retryGo, h0, h1]
      · simp [generate_with_retry, retryGo, h0, h1, List.range_succ, Except.isOk,
          Except.toBool, List.countP_cons]
      · simp [generate_with_retry, retryGo, h0, h1, List.range_succ]
      · intro f0 f1 f2 g0 g1 g2
        exact absurd g1 (by simp)
      · intro v hv
        simp [generate_with_retry, retryGo, h0, h1] at hv
        exact ⟨1, by omega, by rw [h1, hv]⟩
  · refine ⟨?_, ?_, ?_, ?_, ?_⟩
    · simp [generate_with_retry, retryGo, h0]
    · simp [generate_with_retry, retryGo, h0, List.range_succ, Except.isOk,
        Except.toBool, List.countP_cons]
    · simp [generate_with_retry, retryGo, h0, List.range_succ]
    · intro f0 f1 f2 g0 g1 g2
      exact absurd g0 (by simp)
    · intro v hv
      simp [generate_with_retry, retryGo, h0] at hv
      exact ⟨0, by omega, by rw [h0, hv]⟩

lemma getElem?_range_map (g : Nat → Nat) {n i s : Nat}
    (h : ((List.range n).map g)[i]? = some s) : s = g i := by
  rw [List.getElem?_map] at h
  by_cases hi : i < n
  · rw [List.getElem?_range hi] at h
    simpa using h.symm
  · rw [List.getElem?_eq_none (by simpa using Nat.le_of_not_lt hi)] at h
    simp at h

/-- C1: a `generate_with_retry` run makes at most 3 attempts; the retry
counter is incremented exactly for the failed attempts that are not the
first; every sleep taken for attempt `i` is the capped base
`min(2^i seconds, 10 s)` plus a jitter of at most a quarter of that
capped base; and when all three attempts fail the run returns the last
error observed. -/
theorem generate_with_retry_c1 {ε ρ : Type} :
    ∀ (outcomes : Nat → Except ε ρ) (rng : Nat → Nat) (exhausted : ε) (r : RetryRun ε ρ),
      r = generate_with_retry outcomes rng exhausted →
      r.attempts ≤ 3
      ∧ r.retryIncrements
          = (List.range r.attempts).countP (fun i => decide (0 < i) && !(outcomes i).isOk)
      ∧ r.sleepsMs
          = (List.range (r.attempts - 1)).map
              (fun i => backoffBaseMs i + rng i % (backoffBaseMs i / 4 + 1))
      ∧ (∀ i s, r.sleepsMs[i]? = some s →
          backoffBaseMs i = min (1000 * 2 ^ i) 10000
          ∧ backoffBaseMs i ≤ s ∧ s ≤ backoffBaseMs i + backoffBaseMs i / 4)
      ∧ (∀ e0 e1 e2, outcomes 0 = Except.error e0 → outcomes 1 = Except.error e1 →
          outcomes 2 = Except.error e2 → r.attempts = 3 ∧ r.result = Except.error e2)
      ∧ (∀ v, r.result = Except.ok v → ∃ i, i < 3 ∧ outcomes i = Except.ok v) := by
  intro outcomes rng exhausted r hr
  subst hr
  obtain ⟨hA, hB, hC, hD, hE⟩ := retryRun_facts outcomes rng exhausted
  refine ⟨hA, hB, hC, ?_, hD, hE⟩
  intro i s hs
  rw [hC] at hs
  have hval : s = backoffBaseMs i + rng i % (backoffBaseMs i / 4 + 1) :=
    getElem?_range_map (fun j => backoffBaseMs j + rng j % (backoffBaseMs j / 4 + 1)) hs
  refine ⟨rfl, ?_, ?_⟩
  · rw [hval]
    exact Nat.le_add_right _ _
  · rw [hval]
    have hm : rng i % (backoffBaseMs i / 4 + 1) < backoffBaseMs i / 4 + 1 :=
      Nat.mod_lt _ (Nat.succ_pos _)
    omega

/-- Witness for C1: a run whose three attempts all fail makes 3
attempts, counts 2 retries, sleeps within the claimed bounds and
returns the last error. -/
theorem generate_with_retry_c1_witness :
    (generate_with_retry (fun _ => (Except.error "boom" : Except String Nat))
        (fun _ => 125) "x").result = Except.error "boom"
    ∧ (generate_with_retry (fun _ => (Except.error "boom" : Except String Nat))
        (fun _ => 125) "x").attempts = 3
    ∧ (generate_with_retry (fun _ => (Except.error "boom" : Except String Nat))
        (fun _ => 125) "x").retryIncrements = 2
    ∧ 1000 ≤ ((generate_with_retry (fun _ => (Except.error "boom" : Except String Nat))
        (fun _ => 125) "x").sleepsMs.getD 0 0) := by
  have h := generate_with_retry_c1 (fun _ => (Except.error "boom" : Except String Nat))
    (fun _ => 125) "x" _ rfl
  have hD := h.2.2.2.2.1 "boom" "boom" "boom" rfl rfl rfl
  refine ⟨hD.2, hD.1, ?_, ?_⟩
  · rw [h.2.1, hD.1]
    decide
  · have hb := (h.2.2.2.1 0 1125 (by rw [h.2.2.1, hD.1]; rfl)).2.1
    simpa using hb

/-- C2: when the primary retry run ends in an error and a fallback is
configured, `generate` reports one fallback-counter increment and reruns
`generate_with_retry` (its own budget of at most 3 attempts) on the
fallback provider with a request equal to the original except that
`model` is replaced by the configured fallback model, returning that
run's result; with no fallback configured it returns the terminal error
naming the primary provider and wrapping the underlying cause.  When the
primary run succeeds, no fallback accounting happens. -/
theorem generate_c2 {ρ : Type} :
    ∀ (client : LlmClient ρ) (req : GenerateRequest) (rngP rngF : Nat → Nat) (g : GenerateCall ρ),
      g = generate client req rngP rngF →
      (∀ e, (generate_with_retry (client.primary req) rngP exhaustedMsg).result = Except.error e →
        (∀ fb, client.fallback = some fb →
          g.fallbackCount = 1
          ∧ g.fallbackRun = some ({ req with model := client.fallback_model },
              generate_with_retry (fb { req with model := client.fallback_model }) rngF exhaustedMsg)
          ∧ g.result = (generate_with_retry (fb { req with model := client.fallback_model })
              rngF exhaustedMsg).result
          ∧ (generate_with_retry (fb { req with model := client.fallback_model })
              rngF exhaustedMsg).attempts ≤ 3
          ∧ ({ req with model := client.fallback_model } : GenerateRequest).model
              = client.fallback_model
          ∧ ({ req with model := client.fallback_model } : GenerateRequest).system = req.system
          ∧ ({ req with model := client.fallback_model } : GenerateRequest).prompt = req.prompt
          ∧ ({ req with model := client.fallback_model } : GenerateRequest).temperature
              = req.temperature
          ∧ ({ req with model := client.fallback_model } : GenerateRequest).max_tokens
              = req.max_tokens
          ∧ ({ req with model := client.fallback_model } : GenerateRequest).stage = req.stage)
        ∧ (client.fallback = none →
          g.fallbackCount = 0
          ∧ g.result = Except.error ("primary provider " ++ client.primary_provider
              ++ " failed after retries: " ++ e)))
      ∧ ((generate_with_retry (client.primary req) rngP exhaustedMsg).result.isOk = true →
        g.fallbackCount = 0
        ∧ g.result = (generate_with_retry (client.primary req) rngP exhaustedMsg).result) := by
  intro client req rngP rngF g hg
  subst hg
  refine ⟨?_, ?_⟩
  · intro e he
    refine ⟨?_, ?_⟩
    · intro fb hf
      have hgen : generate client req rngP rngF
          = ⟨(generate_with_retry (fb { req with model := client.fallback_model })
                rngF exhaustedMsg).result, 1,
              generate_with_retry (client.primary req) rngP exhaustedMsg,
              some ({ req with model := client.fallback_model },
                generate_with_retry (fb { req with model := client.fallback_model })
                  rngF exhaustedMsg)⟩ := by
        simp only [generate, he, hf]
      rw [hgen]
      exact ⟨rfl, rfl, rfl, (retryRun_facts _ _ _).1, rfl, rfl, rfl, rfl, rfl, rfl⟩
    · intro hf
      have hgen : generate client req rngP rngF
          = ⟨Except.error ("primary provider " ++ client.primary_provider
                ++ " failed after retries: " ++ e), 0,
              generate_with_retry (client.primary req) rngP exhaustedMsg, none⟩ := by
        simp only [generate, he, hf]
      rw [hgen]
      exact ⟨rfl, rfl⟩
  · intro hok
    rcases hv : (generate_with_retry (client.primary req) rngP exhaustedMsg).result with pe | pv
    · rw [hv] at hok
      simp [Except.isOk, Except.toBool] at hok
    · have hgen : generate client req rngP rngF
          = ⟨Except.ok pv, 0, generate_with_retry (client.primary req) rngP exhaustedMsg, none⟩ := by
        simp only [generate, hv]
      rw [hgen]
      exact ⟨rfl, rfl⟩

/-- Concrete client for the C2 witness: failing primary, succeeding
fallback. -/
def c2Client : LlmClient Nat :=
  { primary := fun _ _ => Except.error "pboom",
    fallback := some (fun _ _ => Except.ok 42),
    primary_provider := "openai",
    fallback_provider := "anthropic",
    fallback_model := "fallback-model" }

/-- Concrete request for the C2 witness. -/
def c2Req : GenerateRequest :=
  { model := "gpt-4.1", system := "sys".toList, prompt := "hi".toList,
    temperature := 3 / 10, max_tokens := 2048, stage := "analyze" }

/-- Witness for C2: with the failing primary, the fallback counter reads
1, the fallback request keeps every field but the model, and the
fallback run's success is returned. -/
theorem generate_c2_witness :
    (generate c2Client c2Req (fun _ => 0) (fun _ => 0)).fallbackCount = 1
    ∧ (generate c2Client c2Req (fun _ => 0) (fun _ => 0)).result = Except.ok 42
    ∧ ((generate c2Client c2Req (fun _ => 0) (fun _ => 0)).fallbackRun.map
        (fun p => p.1.model)) = some "fallback-model"
    ∧ ((generate c2Client c2Req (fun _ => 0) (fun _ => 0)).fallbackRun.map
        (fun p => p.1.system)) = some ("sys".toList) := by
  have h := generate_c2 c2Client c2Req (fun _ => 0) (fun _ => 0) _ rfl
  have h1 := (h.1 "pboom" (by rfl)).1 (fun _ _ => (Except.ok 42 : Except String Nat)) (by rfl)
  refine ⟨h1.1, ?_, ?_, ?_⟩
  · rw [h1.2.2.1]
    rfl
  · rw [h1.2.1]
    rfl
  · rw [h1.2.1]
    rfl

/-- C10: whenever `extract_json` returns (it can panic — third
conjunct), both parse functions return `Ok`: a narrative response of
exactly the Partial Report object yields that title with the default
executive summary and no sections, an unparseable analysis response
degrades to an excerpt in `key_findings`, and in general any
deserialization outcome lands in the `Ok` constructor.  The claim's
"for every input" fails at the input whose last closing brace precedes
its first opening brace, where `extract_json` panics inside both
functions. -/
theorem parse_responses_c10 :
    parse_narrative_response (String.toList "\x7b\"title\":\"Partial Report\"\x7d") 100 50 0
      = some (Except.ok
          { title := String.toList "Partial Report",
            executive_summary := String.toList "Analysis of economic indicators.",
            sections := [], input_tokens := 100, output_tokens := 50, cost_usd := 0 })
    ∧ parse_analysis_response
        (String.toList "This is not JSON at all, just plain text analysis") 200 100 0
      = some (Except.ok
          { trends := [], correlations := [],
            key_findings := [String.toList "This is not JSON at all, just plain text analysis"],
            input_tokens := 200, output_tokens := 100, cost_usd := 0 })
    ∧ parse_narrative_response (String.toList "end\x7d then \x7bstart") 1 1 0 = none
    ∧ (∀ (content : List Char) (it ot : Nat) (c : ℚ) (js : List Char),
        extract_json content = some js →
        ∃ res, parse_narrative_response content it ot c = some (Except.ok res))
    ∧ (∀ (content : List Char) (it ot : Nat) (c : ℚ) (js : List Char),
        extract_json content = some js →
        ∃ res, parse_analysis_response content it ot c = some (Except.ok res)) := by
  refine ⟨by rfl, by rfl, by rfl, ?_, ?_⟩
  · intro content it ot c js hj
    unfold parse_narrative_response
    rw [hj]
    exact ⟨_, rfl⟩
  · intro content it ot c js hj
    unfold parse_analysis_response
    rw [hj]
    exact ⟨_, rfl⟩

/-- Witness for C10 at a concrete input on which `extract_json`
returns. -/
theorem parse_responses_c10_witness :
    (parse_narrative_response (String.toList "hello") 1 1 0).isSome = true := by
  obtain ⟨res, h⟩ :=
    parse_responses_c10.2.2.2.1 (String.toList "hello") 1 1 0 (String.toList "hello") (by decide)
  rw [h]
  rfl
